import Mathlib

set_option maxRecDepth 40000

/-!
Verification of the email-validator service (src/app/ main.py, src/app/db.py,
src/app/middleware.py) against its natural-language specification.

The feature-complete variant of the service lives in the file whose name is
" main.py" (regex format validation, disposable-domain set, MX-record cache,
role-account detection, scoring with a popular-domain floor, strict mode, a
batch endpoint, and an API-key quota guard wired through a before-request
hook).  The definitions below are a shallow embedding of that code:

* Python dict state (DOMAIN_CACHE, the sqlite usage table) becomes explicit
  association lists threaded through the functions.
* The DNS resolver is an oracle parameter (domain to Bool): true means
  dns.resolver.resolve(domain, MX) succeeds, false means it raises.
* Fallible Python code (KeyError from DOMAIN_CACHE[domain] on a missing key)
  returns Except.
* Wall-clock timestamps in responses are omitted (out of scope per the spec);
  the guard receives the current date as a string parameter.
* Two integration faults of the guard wiring are modelled explicitly rather
  than repaired: middleware.py reads key_data.status and
  key_data.daily_quota as attributes of the plain dict that db.get_api_key
  returns, which raises AttributeError (see dictAttr), and the
  before_request hook invokes the two-parameter api_key_middleware with
  zero arguments, which raises TypeError at the call site (see
  before_request_call).
-/

namespace EmailValidator

/-! ## Static configuration data (module-level constants in the source) -/

/-- DISPOSABLE_DOMAINS from the source.  The Python set literal lists
"throwawaymail.com" twice; the set collapses the duplicate, so membership is
identical to membership in this list. -/
def DISPOSABLE_DOMAINS : List String :=
  ["tempmail.com", "mailinator.com", "yopmail.com",
   "10minutemail.com", "guerrillamail.com", "trashmail.com",
   "fakeinbox.com", "throwawaymail.com", "getairmail.com",
   "sharklasers.com", "guerrillamail.info", "dispostable.com",
   "temp-mail.org", "mailnesia.com"]

/-- ROLE_PREFIXES from the source. -/
def ROLE_PREFIXES : List String := ["admin", "info", "support", "sales", "contact"]

/-- The popular_domains set from calculate_email_score. -/
def popular_domains : List String :=
  ["gmail.com", "yahoo.com", "outlook.com", "hotmail.com"]

/-- strict_mode flag per plan, from the PLANS table (the request-per-period
fields are never read by the code and are omitted). -/
def PLANS_strict_mode : List (String × Bool) :=
  [("free", false), ("basic", true), ("pro", true), ("enterprise", true)]

def assocLookup : List (String × Bool) → String → Option Bool
  | [], _ => none
  | (k, v) :: rest, s => if k = s then some v else assocLookup rest s

/-- PLANS.get(plan, \x7b\x7d).get(strict_mode, False). -/
def plan_strict_mode (plan : String) : Bool :=
  match assocLookup PLANS_strict_mode plan with
  | some b => b
  | none => false

/-! ## Python string primitives

The Lean core String functions (splitOn, trim, toLower, endsWith) walk the
string through Substring byte positions with well-founded recursion, which
the kernel cannot evaluate; the embedding therefore works on the underlying
character list with structural recursion, which also matches the
codepoint-wise semantics of the Python methods. -/

/-- Membership test in a list of strings (Python set membership of str). -/
def listHas : List String → String → Bool
  | [], _ => false
  | x :: rest, s => if x = s then true else listHas rest s

/-- Python str.lower (ASCII inputs here, where it is char-wise toLower). -/
def pyLower (s : String) : String :=
  String.mk (s.data.map Char.toLower)

/-- Python whitespace as stripped by str.strip. -/
def isSpaceChar (c : Char) : Bool :=
  c == ' ' || c == '\t' || c == '\n' || c == '\r' || c == '\x0b' || c == '\x0c'

/-- Python str.strip: drop whitespace from both ends. -/
def pyStrip (s : String) : String :=
  String.mk (((s.data.dropWhile isSpaceChar).reverse.dropWhile isSpaceChar).reverse)

/-- Python str.split at the at sign: the groups of characters between the
occurrences of the separator (an empty string yields one empty group). -/
def splitAtSign : List Char → List (List Char)
  | [] => [[]]
  | c :: rest =>
    let groups := splitAtSign rest
    if c = '@' then [] :: groups
    else
      match groups with
      | g :: gs => (c :: g) :: gs
      | [] => [[c]]

/-! ## Format validation

The source matches the raw string against the Python regex
  caret [a-zA-Z0-9._%+-]+ at [a-zA-Z0-9.-]+ dot [a-zA-Z]\x7b2,\x7d dollar
with re.match.  The character classes are ASCII-only.  Since the local class
excludes the at sign, a match forces the string to contain exactly one at
sign; the tail after the at sign must decompose as stem, dot, tld where the
tld is the run after the last dot (an earlier dot cannot work because the
final label admits only letters).  A dollar anchor in Python also matches
just before one trailing newline, which the embedding reproduces. -/

def isLocalChar (c : Char) : Bool :=
  c.isAlpha || c.isDigit || c == '.' || c == '_' || c == '%' || c == '+' || c == '-'

def isDomainChar (c : Char) : Bool :=
  c.isAlpha || c.isDigit || c == '.' || c == '-'

/-- Full match of the pattern body (without the trailing-newline allowance). -/
def matchesEmailPattern (cs : List Char) : Bool :=
  match splitAtSign cs with
  | [l, r] =>
    !l.isEmpty && l.all isLocalChar &&
    (let tld := (r.reverse.takeWhile (fun c => c != '.')).reverse
     let stem := r.take (r.length - tld.length - 1)
     decide (tld.length < r.length) && !stem.isEmpty &&
       stem.all isDomainChar && decide (2 ≤ tld.length) && tld.all Char.isAlpha)
  | _ => false

/-- validate_email_format from the source (re.match of the anchored pattern;
the dollar anchor also accepts exactly one trailing newline). -/
def validate_email_format (email : String) : Bool :=
  matchesEmailPattern email.data ||
    (match email.data.getLast? with
     | some c => decide (c = '\n') && matchesEmailPattern email.data.dropLast
     | none => false)

/-! ## Domain cache and the disposable / MX checks -/

/-- One DOMAIN_CACHE value: a dict with keys disposable and mx_record, the
latter None until an MX resolution has been attempted. -/
structure DomainEntry where
  disposable : Bool
  mx_record : Option Bool
deriving Repr, DecidableEq

/-- DOMAIN_CACHE, a Python dict modelled as an association list. -/
abbrev Cache := List (String × DomainEntry)

def cacheLookup : Cache → String → Option DomainEntry
  | [], _ => none
  | (k, e) :: rest, d => if k = d then some e else cacheLookup rest d

/-- Python dict assignment DOMAIN_CACHE[d] = e (overwrite or append). -/
def cacheSet : Cache → String → DomainEntry → Cache
  | [], d, e => [(d, e)]
  | (k, e0) :: rest, d, e =>
    if k = d then (d, e) :: rest else (k, e0) :: cacheSet rest d e

/-- Exceptions the embedded Python fragments can raise. -/
inductive PyErr
  | keyError (k : String)
  | attributeError (attr : String)
  | typeError (fn : String)
deriving Repr, DecidableEq

/-- DOMAIN_CACHE[domain][mx_record] = v : mutates the inner dict of an
existing entry, raises KeyError when the domain has no entry. -/
def cacheSetMx (cache : Cache) (domain : String) (v : Bool) : Except PyErr Cache :=
  match cacheLookup cache domain with
  | none => .error (.keyError domain)
  | some e => .ok (cacheSet cache domain { e with mx_record := some v })

/-- is_disposable_domain from the source: answer from the cache when present,
otherwise decide by set membership of the lowercased domain and create the
cache entry (with mx_record = None). -/
def is_disposable_domain (cache : Cache) (domain : String) : Bool × Cache :=
  match cacheLookup cache domain with
  | some e => (e.disposable, cache)
  | none =>
    let disposable := listHas DISPOSABLE_DOMAINS (pyLower domain)
    (disposable, cacheSet cache domain { disposable := disposable, mx_record := none })

/-- The try/except body of has_mx_record once the cached-value fast path has
been passed.  The try block resolves and then writes True into the cache
entry; the bare except catches any exception raised in the try block
(including the KeyError from a missing entry) and runs the except block,
which writes False and returns False — and itself raises KeyError when the
entry is missing. -/
def has_mx_resolve (resolveOk : String → Bool) (cache : Cache) (domain : String) :
    Except PyErr (Bool × Cache) :=
  if resolveOk domain then
    match cacheSetMx cache domain true with
    | .ok c2 => .ok (true, c2)
    | .error _ =>
      match cacheSetMx cache domain false with
      | .ok c2 => .ok (false, c2)
      | .error e => .error e
  else
    match cacheSetMx cache domain false with
    | .ok c2 => .ok (false, c2)
    | .error e => .error e

/-- has_mx_record from the source. -/
def has_mx_record (resolveOk : String → Bool) (cache : Cache) (domain : String) :
    Except PyErr (Bool × Cache) :=
  match cacheLookup cache domain with
  | some e =>
    match e.mx_record with
    | some b => .ok (b, cache)
    | none => has_mx_resolve resolveOk cache domain
  | none => has_mx_resolve resolveOk cache domain

/-! ## Role check, scoring, risk -/

/-- email.split(at)[1].lower() — the part after the first at sign,
lowercased.  For format-valid strings the at sign is unique. -/
def emailDomain (email : String) : String :=
  pyLower (String.mk ((splitAtSign email.data).getD 1 []))

/-- is_role_email from the source: the full local part, lowercased, is a
member of ROLE_PREFIXES. -/
def is_role_email (email : String) : Bool :=
  listHas ROLE_PREFIXES (pyLower (String.mk ((splitAtSign email.data).getD 0 [])))

/-- calculate_email_score from the source, verbatim structure: 0 when not
valid; otherwise start at 85, override to 30 when disposable, subtract 20
when role, subtract 30 when no MX, raise to at least 95 for a popular
domain, and clamp to [0, 100]. -/
def calculate_email_score (email : String)
    (valid disposable mx_record role_email : Bool) : Int :=
  if !valid then 0
  else
    let score : Int := 85
    let score := if disposable then 30 else score
    let score := if role_email then score - 20 else score
    let score := if !mx_record then score - 30 else score
    let domain := emailDomain email
    let score := if listHas popular_domains domain then max score 95 else score
    max 0 (min 100 score)

/-- determine_risk from the source. -/
def determine_risk (disposable role_email mx_record : Bool) : String :=
  if disposable || !mx_record then "high"
  else if role_email then "medium"
  else "low"

/-! ## The /verify handler -/

def suggestion_disposable : String :=
  "Use a professional email provider (Gmail, Outlook, etc.)"

def suggestion_role : String :=
  "Avoid role-based emails like info@, admin@, support@"

def suggestion_low_score : String :=
  "Consider using a more reputable email domain"

/-- The JSON body assembled by verify_email.  suggestions is none for the
too-long response, whose JSON carries a message key and no suggestions key;
the wall-clock timestamp key is out of scope and omitted. -/
structure VerifyResult where
  email : String
  valid_format : Bool
  disposable : Bool
  mx_record : Bool
  role_email : Bool
  risk_level : String
  score : Int
  suggestions : Option (List String)
  message : Option String
deriving Repr, DecidableEq

/-- The response tail of verify_email shared by the valid and invalid format
paths: score from calculate_email_score, the strict-mode zeroing, risk level,
and the suggestion list appended in source order (disposable, role, low
score). -/
def mkVerifyResult (email : String)
    (valid_format disposable mx_record role_email strict : Bool) : VerifyResult :=
  let base := calculate_email_score email valid_format disposable mx_record role_email
  let score := if strict && (disposable || role_email || !mx_record) then 0 else base
  { email := email
    valid_format := valid_format
    disposable := disposable
    mx_record := mx_record
    role_email := role_email
    risk_level := determine_risk disposable role_email mx_record
    score := score
    suggestions := some ((if disposable then [suggestion_disposable] else []) ++
                         (if role_email then [suggestion_role] else []) ++
                         (if score < 50 then [suggestion_low_score] else []))
    message := none }

/-- The early return of verify_email for a stripped email longer than 254
characters. -/
def tooLongResult (email : String) : VerifyResult :=
  { email := email
    valid_format := false
    disposable := false
    mx_record := false
    role_email := false
    risk_level := "high"
    score := 0
    suggestions := none
    message := some "Email too long (max 254 characters)" }

inductive VerifyResponse
  | badRequest (msg : String)
  | ok (r : VerifyResult)
  | serverError (e : PyErr)
deriving Repr, DecidableEq

/-- verify_email from the source.  Parameters: the resolver oracle, the
current DOMAIN_CACHE, and the three query parameters (each absent or a
string).  Returns the response together with the DOMAIN_CACHE after the
request; an uncaught Python exception surfaces as serverError (the Flask 500
handler). -/
def verify_email (resolveOk : String → Bool) (cache : Cache)
    (emailParam planParam strictParam : Option String) : VerifyResponse × Cache :=
  let email := pyStrip (emailParam.getD "")
  let plan := planParam.getD "free"
  let strict := (pyLower (strictParam.getD "false") = "true") &&
    plan_strict_mode plan
  if email = "" then (.badRequest "Email parameter is required", cache)
  else if 254 < email.length then (.ok (tooLongResult email), cache)
  else if validate_email_format email then
    let domain := emailDomain email
    let dc := is_disposable_domain cache domain
    match has_mx_record resolveOk dc.2 domain with
    | .error e => (.serverError e, dc.2)
    | .ok mc =>
      (.ok (mkVerifyResult email true dc.1 mc.1 (is_role_email email) strict), mc.2)
  else
    (.ok (mkVerifyResult email false false false false strict), cache)

/-! ## The /batch handler -/

/-- JSON values that can appear as an entry of the emails array. -/
inductive JVal
  | jstr (s : String)
  | jint (n : Int)
  | jbool (b : Bool)
  | jnull
deriving Repr, DecidableEq

/-- Python str() of a JSON scalar. -/
def pyStr : JVal → String
  | .jstr s => s
  | .jint n => toString n
  | .jbool true => "True"
  | .jbool false => "False"
  | .jnull => "None"

/-- One element of the results array of /batch.  error is the per-item
processing-error marker, set only on the except path. -/
structure BatchItemResult where
  email : String
  valid_format : Bool
  disposable : Bool
  mx_record : Bool
  role_email : Bool
  risk_level : String
  score : Int
  error : Option String
deriving Repr, DecidableEq

/-- The try/except body of the /batch loop for one entry.  The entry is
coerced with str() and stripped; any exception raised while processing it
(in this code only the KeyError that has_mx_record could raise) is caught
and turned into the result carrying the Processing error marker. -/
def batch_item (resolveOk : String → Bool) (cache : Cache) (v : JVal) :
    BatchItemResult × Cache :=
  let email := pyStrip (pyStr v)
  if validate_email_format email then
    let domain := emailDomain email
    let dc := is_disposable_domain cache domain
    match has_mx_record resolveOk dc.2 domain with
    | .error _ =>
      ({ email := email, valid_format := false, disposable := false,
         mx_record := false, role_email := false, risk_level := "high",
         score := 0, error := some "Processing error" }, dc.2)
    | .ok mc =>
      let role_email := is_role_email email
      ({ email := email, valid_format := true, disposable := dc.1,
         mx_record := mc.1, role_email := role_email,
         risk_level := determine_risk dc.1 role_email mc.1,
         score := calculate_email_score email true dc.1 mc.1 role_email,
         error := none }, mc.2)
  else
    ({ email := email, valid_format := false, disposable := false,
       mx_record := false, role_email := false,
       risk_level := determine_risk false false false,
       score := calculate_email_score email false false false false,
       error := none }, cache)

/-- The /batch loop: process the entries in input order, threading the
DOMAIN_CACHE. -/
def batch_run (resolveOk : String → Bool) : Cache → List JVal → List BatchItemResult × Cache
  | cache, [] => ([], cache)
  | cache, v :: vs =>
    let rc := batch_item resolveOk cache v
    let rest := batch_run resolveOk rc.2 vs
    (rc.1 :: rest.1, rest.2)

inductive BatchResponse
  | badRequest (msg : String)
  | ok (total_emails processed : Nat) (results : List BatchItemResult)
deriving Repr, DecidableEq

/-- batch_verify from the source, from the point where the emails list has
been extracted from the JSON payload (the missing-payload and not-a-list 400
paths precede and do not involve the classifier).  total_emails and
processed are len(emails) and len(results). -/
def batch_verify (resolveOk : String → Bool) (cache : Cache) (emails : List JVal) :
    BatchResponse × Cache :=
  if 100 < emails.length then (.badRequest "Maximum 100 emails per batch", cache)
  else
    let rc := batch_run resolveOk cache emails
    (.ok emails.length rc.1.length rc.1, rc.2)

/-! ## Quota guard (middleware.py and db.py)

The sqlite tables are modelled as values: the api_keys table as a lookup
function and the api_usage table as an association list keyed by (api_key,
date) — the schema has a uniqueness constraint on that pair.  The process
clock date is a string parameter. -/

/-- One row of the api_keys table as packaged by db.get_api_key: a plain
Python dict with the keys key, status and daily_quota.  The fields below
model the dict entries, which the program could read by subscription
(key_data["status"]); middleware.py instead reads them by attribute access,
which is modelled by dictAttr. -/
structure ApiKeyRecord where
  key : String
  status : String
  daily_quota : Int
deriving Repr, DecidableEq

/-- Attribute access key_data.attr on the value middleware.py receives from
db.get_api_key.  get_api_key returns a plain dict, and a plain dict does not
expose its entries as attributes, so key_data.status and
key_data.daily_quota raise AttributeError regardless of the stored row. -/
def dictAttr (α : Type) (_kd : ApiKeyRecord) (attr : String) : Except PyErr α :=
  .error (.attributeError attr)

/-- The api_usage table: ((api_key, date), count) rows. -/
abbrev UsageTable := List ((String × String) × Nat)

def usageLookup : UsageTable → String → String → Option Nat
  | [], _, _ => none
  | (p, n) :: rest, k, d => if p = (k, d) then some n else usageLookup rest k d

/-- db.get_usage: the count of the row for (key, today), or 0 when absent. -/
def get_usage (u : UsageTable) (key today : String) : Nat :=
  (usageLookup u key today).getD 0

/-- The UPDATE arm of the upsert: add one to the count of the matching row. -/
def usageBump : UsageTable → String → String → UsageTable
  | [], _, _ => []
  | (p, n) :: rest, k, d =>
    if p = (k, d) then (p, n + 1) :: rest else (p, n) :: usageBump rest k d

/-- db.increment_usage: the atomic INSERT ... ON CONFLICT(api_key, date) DO
UPDATE SET count = count + 1 — insert a row with count 1 when absent,
otherwise add 1 to the existing count. -/
def increment_usage (u : UsageTable) (key today : String) : UsageTable :=
  match usageLookup u key today with
  | none => ((key, today), 1) :: u
  | some _ => usageBump u key today

/-- The four rejections of api_key_middleware. -/
inductive GuardError
  | missingKey
  | invalidKey
  | suspendedKey
  | quotaExceeded
deriving Repr, DecidableEq

/-- The HTTP status of each HTTPException raised by the middleware. -/
def GuardError.statusCode : GuardError → Nat
  | .missingKey => 401
  | .invalidKey => 403
  | .suspendedKey => 403
  | .quotaExceeded => 429

/-- The detail message of each HTTPException raised by the middleware. -/
def GuardError.detail : GuardError → String
  | .missingKey => "API key missing"
  | .invalidKey => "Invalid API key"
  | .suspendedKey => "API key suspended"
  | .quotaExceeded => "Daily quota exceeded"

inductive GuardOutcome
  | rejected (e : GuardError)
  | raised (e : PyErr)
  | errored
  | passed (u : UsageTable)
deriving Repr, DecidableEq

/-- api_key_middleware from middleware.py, faithful to its data flow.
getKey is db.get_api_key over the api_keys table; header is the X-API-Key
request header (a missing header and an empty one are both falsy in the
Python check).  The status and daily_quota reads go through dictAttr — the
attribute access on the dict that get_api_key returns — so once a record is
found the function raises AttributeError (raised, a 500-equivalent) and the
suspended, quota, accept and increment branches below are dead code, kept
to mirror the source.  downstreamOk is whether call_next completes without
raising; on success the counter would be incremented after the downstream
handling. -/
def api_key_middleware (getKey : String → Option ApiKeyRecord)
    (usage : UsageTable) (today : String) (header : Option String)
    (downstreamOk : Bool) : GuardOutcome :=
  match header with
  | none => .rejected .missingKey
  | some apiKey =>
    if apiKey = "" then .rejected .missingKey
    else
      match getKey apiKey with
      | none => .rejected .invalidKey
      | some kd =>
        match dictAttr String kd "status" with
        | .error e => .raised e
        | .ok status =>
          if !(status = "active") then .rejected .suspendedKey
          else
            match dictAttr Int kd "daily_quota" with
            | .error e => .raised e
            | .ok quota =>
              if quota ≤ (get_usage usage apiKey today : Int) then
                .rejected .quotaExceeded
              else if downstreamOk then .passed (increment_usage usage apiKey today)
              else .errored

inductive RequestResult
  | guardRejected (e : GuardError)
  | guardRaised (e : PyErr)
  | routed (path : String)
deriving Repr, DecidableEq

/-- The registered routes of the Flask app. -/
def app_routes : List String :=
  ["/", "/verify", "/batch", "/health", "/stats", "/domains"]

/-- The TypeError raised by the expression api_key_middleware() in the
before_request hook: the call supplies none of the two required positional
parameters (request, call_next) of the function middleware.py defines, so
Python raises at the call site without entering the function. -/
def middleware_arity_error : PyErr :=
  .typeError "api_key_middleware missing 2 required positional arguments"

/-- The result of the hook body line result = api_key_middleware(): always
the arity TypeError; were the call well-formed, ok none would mean proceed
to the route and ok (some e) a short-circuiting rejection. -/
def before_request_call : Except PyErr (Option GuardError) :=
  .error middleware_arity_error

/-- The per-request pipeline of the Flask app.  before_request is
registered for every inbound request — the hook body contains no path test,
so no route is excluded — and its zero-argument invocation of the
two-parameter api_key_middleware raises TypeError before any header, key or
quota logic can run: the uncaught exception becomes the 500-equivalent
response, the routed handler never runs, and the usage table is never
touched, for every path and every header. -/
def handle_request (_getKey : String → Option ApiKeyRecord) (usage : UsageTable)
    (_today path : String) (_header : Option String) : RequestResult × UsageTable :=
  match before_request_call with
  | .error e => (.guardRaised e, usage)
  | .ok (some ge) => (.guardRejected ge, usage)
  | .ok none => (.routed path, usage)

/-! ## Concrete data for the witnesses -/

/-- A small api_keys table: an active key with daily_quota 2 and a suspended
key. -/
def demoKeys : String → Option ApiKeyRecord := fun s =>
  if s = "k1" then some { key := "k1", status := "active", daily_quota := 2 }
  else if s = "k2" then some { key := "k2", status := "suspended", daily_quota := 5 }
  else none

/-- A query parameter of 255 characters: a short well-formed email padded
with trailing spaces, so that the raw value exceeds the length cap while its
stripped form does not. -/
def paddedEmailParam : String :=
  "a@gmail.com" ++ String.mk (List.replicate 244 ' ')

/-- A 255-character string with no surrounding whitespace. -/
def longBareInput : String :=
  String.mk (List.replicate 255 'a')

/-- The scoring policy in the words of the specification: base 85;
disposable overrides the score to 30; role subtracts 20 from the current
score; absent MX subtracts 30 from the current score; then the
popular-domain floor raises the score to at least 95; then the result is
clamped to [0, 100]. -/
def score_spec (domain : String) (disposable role_email mx_record : Bool) : Int :=
  let base : Int := 85
  let afterDisposable := if disposable then 30 else base
  let afterRole := if role_email then afterDisposable - 20 else afterDisposable
  let afterMx := if !mx_record then afterRole - 30 else afterRole
  let floored := if listHas popular_domains domain then max afterMx 95 else afterMx
  max 0 (min 100 floored)

/-! ## Helper lemmas -/

theorem cacheLookup_set_self (c : Cache) (d : String) (e : DomainEntry) :
    cacheLookup (cacheSet c d e) d = some e := by
  induction c with
  | nil => simp [cacheSet, cacheLookup]
  | cons p rest ih =>
    obtain ⟨k, e0⟩ := p
    by_cases h : k = d
    · simp [cacheSet, h, cacheLookup]
    · simp [cacheSet, h, cacheLookup, ih]

theorem disposable_entry_exists (c : Cache) (d : String) :
    ∃ e, cacheLookup ((is_disposable_domain c d).2) d = some e := by
  unfold is_disposable_domain
  cases h : cacheLookup c d with
  | some e => exact ⟨e, by simp [h]⟩
  | none =>
    refine ⟨{ disposable := listHas DISPOSABLE_DOMAINS (pyLower d),
              mx_record := none }, ?_⟩
    simp [h, cacheLookup_set_self]

theorem cacheSetMx_ok (c : Cache) (d : String) (e : DomainEntry) (v : Bool)
    (h : cacheLookup c d = some e) :
    cacheSetMx c d v = .ok (cacheSet c d { e with mx_record := some v }) := by
  unfold cacheSetMx
  rw [h]

theorem has_mx_record_entry (r : String → Bool) (c : Cache) (d : String)
    (e : DomainEntry) (h : cacheLookup c d = some e) :
    has_mx_record r c d = (match e.mx_record with
      | some b => Except.ok (b, c)
      | none => has_mx_resolve r c d) := by
  unfold has_mx_record
  rw [h]

theorem has_mx_resolve_entry (r : String → Bool) (c : Cache) (d : String)
    (e : DomainEntry) (h : cacheLookup c d = some e) :
    has_mx_resolve r c d = .ok (r d, cacheSet c d { e with mx_record := some (r d) }) := by
  unfold has_mx_resolve
  cases hr : r d with
  | true => simp [cacheSetMx_ok c d e true h]
  | false => simp [cacheSetMx_ok c d e false h]

theorem has_mx_entry_ok (r : String → Bool) (c : Cache) (d : String) (e : DomainEntry)
    (h : cacheLookup c d = some e) :
    ∃ b c2, has_mx_record r c d = .ok (b, c2) := by
  rw [has_mx_record_entry r c d e h]
  cases hm : e.mx_record with
  | some b => exact ⟨b, c, by simp⟩
  | none =>
    exact ⟨r d, cacheSet c d { e with mx_record := some (r d) },
      by simp [has_mx_resolve_entry r c d e h]⟩

theorem has_mx_fail_entry (r : String → Bool) (c : Cache) (d : String) (e : DomainEntry)
    (h : cacheLookup c d = some e) (hm : e.mx_record = none) (hr : r d = false) :
    has_mx_record r c d = .ok (false, cacheSet c d { e with mx_record := some false }) := by
  rw [has_mx_record_entry r c d e h, hm]
  rw [has_mx_resolve_entry r c d e h, hr]

theorem has_mx_missing_error (r : String → Bool) (c : Cache) (d : String)
    (h : cacheLookup c d = none) :
    has_mx_record r c d = .error (.keyError d) := by
  unfold has_mx_record
  rw [h]
  unfold has_mx_resolve
  unfold cacheSetMx
  rw [h]
  cases hr : r d <;> simp

theorem verify_not_serverError (r : String → Bool) (c : Cache)
    (p pl st : Option String) (e : PyErr) (u : Cache) :
    verify_email r c p pl st ≠ (.serverError e, u) := by
  unfold verify_email
  by_cases h1 : pyStrip (p.getD "") = ""
  · simp [h1]
  · by_cases h2 : 254 < (pyStrip (p.getD "")).length
    · simp [h1, h2]
    · cases h3 : validate_email_format (pyStrip (p.getD "")) with
      | false => simp [h1, h2, h3]
      | true =>
        obtain ⟨e0, he⟩ := disposable_entry_exists c (emailDomain (pyStrip (p.getD "")))
        obtain ⟨b, c2, hok⟩ := has_mx_entry_ok r _ _ e0 he
        simp [h1, h2, h3, hok]

theorem batch_item_email (r : String → Bool) (c : Cache) (v : JVal) :
    (batch_item r c v).1.email = pyStrip (pyStr v) := by
  unfold batch_item
  cases h : validate_email_format (pyStrip (pyStr v)) with
  | false => simp [h]
  | true =>
    cases hm : has_mx_record r
        (is_disposable_domain c (emailDomain (pyStrip (pyStr v)))).2
        (emailDomain (pyStrip (pyStr v))) with
    | error e => simp [h, hm]
    | ok mc => simp [h, hm]

theorem batch_item_no_error (r : String → Bool) (c : Cache) (v : JVal) :
    (batch_item r c v).1.error = none := by
  unfold batch_item
  cases h : validate_email_format (pyStrip (pyStr v)) with
  | false => simp [h]
  | true =>
    obtain ⟨e0, he⟩ := disposable_entry_exists c (emailDomain (pyStrip (pyStr v)))
    obtain ⟨b, c2, hok⟩ := has_mx_entry_ok r _ _ e0 he
    simp [h, hok]

theorem batch_run_length (r : String → Bool) :
    ∀ (vs : List JVal) (c : Cache), ((batch_run r c vs).1).length = vs.length
  | [], _ => rfl
  | v :: vs, c => by simp [batch_run, batch_run_length r vs]

theorem batch_run_emails (r : String → Bool) :
    ∀ (vs : List JVal) (c : Cache),
      ((batch_run r c vs).1).map (fun it => it.email) =
        vs.map (fun v => pyStrip (pyStr v))
  | [], _ => rfl
  | v :: vs, c => by
    simp [batch_run, batch_item_email, batch_run_emails r vs]

theorem batch_run_no_error (r : String → Bool) :
    ∀ (vs : List JVal) (c : Cache) (it : BatchItemResult),
      it ∈ (batch_run r c vs).1 → it.error = none
  | [], c, it, h => by simp [batch_run] at h
  | v :: vs, c, it, h => by
    simp only [batch_run, List.mem_cons] at h
    rcases h with h | h
    · rw [h]
      exact batch_item_no_error r c v
    · exact batch_run_no_error r vs _ it h

theorem usageLookup_bump (k d : String) :
    ∀ (u : UsageTable) (n : Nat), usageLookup u k d = some n →
      usageLookup (usageBump u k d) k d = some (n + 1)
  | [], n, h => by simp [usageLookup] at h
  | (p, m) :: rest, n, h => by
    by_cases hp : p = (k, d)
    · simp only [usageLookup, if_pos hp, Option.some.injEq] at h
      simp [usageBump, hp, usageLookup, h]
    · simp only [usageLookup, if_neg hp] at h
      simp [usageBump, hp, usageLookup, usageLookup_bump k d rest n h]

theorem get_usage_increment (u : UsageTable) (k d : String) :
    get_usage (increment_usage u k d) k d = get_usage u k d + 1 := by
  unfold increment_usage
  cases h : usageLookup u k d with
  | none => simp [get_usage, usageLookup, h]
  | some n => simp [get_usage, h, usageLookup_bump k d u n h]

theorem increment_inserts (u : UsageTable) (k d : String)
    (h : usageLookup u k d = none) :
    usageLookup (increment_usage u k d) k d = some 1 := by
  unfold increment_usage
  rw [h]
  simp [usageLookup]

/-- For any existing key record, the middleware reaches the attribute read
of status on the dict and raises AttributeError; nothing past that line is
reachable. -/
theorem middleware_attribute_error (getKey : String → Option ApiKeyRecord)
    (k d : String) (kd : ApiKeyRecord) (u : UsageTable) (dOk : Bool)
    (hk : ¬(k = "")) (hg : getKey k = some kd) :
    api_key_middleware getKey u d (some k) dOk = .raised (.attributeError "status") := by
  unfold api_key_middleware
  simp [hk, hg, dictAttr]

/-! ## Claim theorems -/

/-- C1: for every raw email string that passes format validation,
calculate_email_score computes the score in the exact precedence order of
the specification — base 85; disposable overrides to 30; role subtracts 20;
absent MX subtracts 30; then the popular-domain floor; then the clamp to
[0, 100] — and for an invalid-format string the score is 0. -/
theorem score_follows_spec_precedence :
    (∀ (email : String) (d m r : Bool), validate_email_format email = true →
      calculate_email_score email true d m r = score_spec (emailDomain email) d r m)
    ∧ (∀ (email : String) (d m r : Bool), validate_email_format email = false →
      calculate_email_score email false d m r = 0) := by
  constructor
  · intro email d m r _
    rfl
  · intro email d m r _
    rfl

/-- Witness for C1 at a concrete valid-format and a concrete invalid-format
input. -/
theorem score_follows_spec_precedence_app :
    calculate_email_score "a@gmail.com" true false true false =
      score_spec (emailDomain "a@gmail.com") false false true
    ∧ calculate_email_score "nope" false false true false = 0 :=
  ⟨score_follows_spec_precedence.1 "a@gmail.com" false true false (by decide),
   score_follows_spec_precedence.2 "nope" false true false (by decide)⟩

/-- C2: the claim describes the intended quota behavior, but the code never
reaches it — for every existing key record, the middleware raises
AttributeError at the key_data.status read on the dict returned by
db.get_api_key, so the request gets a 500-equivalent: it is never answered
with the 429 quota-exceeded rejection and never accepted or counted.  The
storage-level increment that the claim describes (insert a row with count 1
when absent, otherwise count + 1) is faithfully implemented by
db.increment_usage, but no request ever calls it. -/
theorem daily_quota_unreachable_attribute_error
    (getKey : String → Option ApiKeyRecord) (k d : String) (kd : ApiKeyRecord)
    (u : UsageTable) (dOk : Bool) (hk : ¬(k = "")) (hg : getKey k = some kd) :
    api_key_middleware getKey u d (some k) dOk = .raised (.attributeError "status")
    ∧ ¬(api_key_middleware getKey u d (some k) dOk = .rejected .quotaExceeded)
    ∧ (∀ u2, ¬(api_key_middleware getKey u d (some k) dOk = .passed u2))
    ∧ (∀ u0 : UsageTable, get_usage (increment_usage u0 k d) k d = get_usage u0 k d + 1)
    ∧ (∀ u0 : UsageTable, usageLookup u0 k d = none →
      usageLookup (increment_usage u0 k d) k d = some 1) := by
  have hmain := middleware_attribute_error getKey k d kd u dOk hk hg
  refine ⟨hmain, ?_, ?_, fun u0 => get_usage_increment u0 k d,
    fun u0 h0 => increment_inserts u0 k d h0⟩
  · rw [hmain]
    simp
  · intro u2
    rw [hmain]
    simp

/-- Witness for C2 at the active demo key with quota 2: the request raises
AttributeError instead of being served or counted. -/
theorem daily_quota_unreachable_attribute_error_app :
    api_key_middleware demoKeys [] "2026-01-01" (some "k1") true =
      .raised (.attributeError "status") :=
  (daily_quota_unreachable_attribute_error demoKeys "k1" "2026-01-01"
    { key := "k1", status := "active", daily_quota := 2 } [] true
    (by decide) (by decide)).1

/-- C3: the missing-key and unknown-key legs of the claim hold — a missing
(or empty) X-API-Key header is rejected with the 401-equivalent and a key
with no record with the distinct 403-equivalent — but the suspended leg is
unreachable in the code: for every existing record, active or not, the
key_data.status attribute read on the dict raises AttributeError
(500-equivalent), so the distinct 403 suspended rejection is never
produced. -/
theorem guard_auth_partial_attribute_error (getKey : String → Option ApiKeyRecord)
    (usage : UsageTable) (today : String) (dOk : Bool) :
    (api_key_middleware getKey usage today none dOk = .rejected .missingKey
      ∧ GuardError.missingKey.statusCode = 401)
    ∧ (∀ k : String, ¬(k = "") → getKey k = none →
      api_key_middleware getKey usage today (some k) dOk = .rejected .invalidKey
      ∧ GuardError.invalidKey.statusCode = 403
      ∧ ¬(GuardError.invalidKey.detail = GuardError.missingKey.detail))
    ∧ (∀ (k : String) (kd : ApiKeyRecord), ¬(k = "") → getKey k = some kd →
      api_key_middleware getKey usage today (some k) dOk =
        .raised (.attributeError "status")
      ∧ ¬(api_key_middleware getKey usage today (some k) dOk =
        .rejected .suspendedKey)) := by
  refine ⟨⟨rfl, rfl⟩, ?_, ?_⟩
  · intro k hk hg
    refine ⟨?_, rfl, by decide⟩
    unfold api_key_middleware
    simp [hk, hg]
  · intro k kd hk hg
    have hmain := middleware_attribute_error getKey k today kd usage dOk hk hg
    refine ⟨hmain, ?_⟩
    rw [hmain]
    simp

/-- Witness for C3 at the suspended demo key: the request raises
AttributeError, not the 403 suspended rejection. -/
theorem guard_auth_partial_attribute_error_app :
    api_key_middleware demoKeys [] "2026-01-01" (some "k2") true =
      .raised (.attributeError "status")
    ∧ ¬(api_key_middleware demoKeys [] "2026-01-01" (some "k2") true =
      .rejected .suspendedKey) :=
  (guard_auth_partial_attribute_error demoKeys [] "2026-01-01" true).2.2 "k2"
    { key := "k2", status := "suspended", daily_quota := 5 }
    (by decide) (by decide)

/-- C4: the claim describes the intended allow-list, but the code has none
and its hook cannot run at all — before_request fires for every path,
including / and /health, and its zero-argument call of the two-parameter
api_key_middleware raises TypeError, so every request to every route, with
or without an X-API-Key, gets the 500-equivalent and the usage table is
never touched. -/
theorem guard_hook_typeerror_on_every_path (getKey : String → Option ApiKeyRecord)
    (u : UsageTable) (today path : String) (header : Option String) :
    handle_request getKey u today path header =
      (.guardRaised middleware_arity_error, u)
    ∧ listHas app_routes "/" = true
    ∧ listHas app_routes "/health" = true :=
  ⟨rfl, by decide, by decide⟩

/-- Witness for C4: a keyless GET /health gets the TypeError 500, not a
guard-free success. -/
theorem guard_hook_typeerror_on_every_path_app :
    handle_request demoKeys [] "2026-01-01" "/health" none =
      (.guardRaised middleware_arity_error, []) :=
  (guard_hook_typeerror_on_every_path demoKeys [] "2026-01-01" "/health" none).1

/-- C5 counterexample: for the invalid-format input not-an-email, /verify
returns the claimed flag values but the suggestions list is not empty — the
low-score suggestion is appended because the score 0 is below 50. -/
theorem invalid_format_suggestions_counterexample :
    verify_email (fun _ => false) [] (some "not-an-email") none none =
      (.ok { email := "not-an-email", valid_format := false, disposable := false,
             mx_record := false, role_email := false, risk_level := "high",
             score := 0, suggestions := some [suggestion_low_score],
             message := none }, [])
    ∧ ¬(some [suggestion_low_score] = some ([] : List String)) :=
  ⟨by decide, by decide⟩

/-- C5 amended: for every email string that fails format validation (within
the length cap), /verify returns valid_format false, disposable false,
mx_record false, role_email false, risk_level high, score 0, and a
suggestions list containing exactly the low-score suggestion (no
domain-derived suggestions), with the domain cache untouched (no
domain-based processing). -/
theorem invalid_format_response_fields (r : String → Bool) (c : Cache)
    (p : String) (pl st : Option String)
    (h1 : ¬(pyStrip p = "")) (h2 : (pyStrip p).length ≤ 254)
    (h3 : validate_email_format (pyStrip p) = false) :
    verify_email r c (some p) pl st =
      (.ok { email := pyStrip p, valid_format := false, disposable := false,
             mx_record := false, role_email := false, risk_level := "high",
             score := 0, suggestions := some [suggestion_low_score],
             message := none }, c) := by
  unfold verify_email
  simp only [Option.getD]
  rw [if_neg h1, if_neg (not_lt.2 h2)]
  rw [h3]
  simp only [Bool.false_eq_true, if_false]
  unfold mkVerifyResult
  cases hstrict : (decide (pyLower ((st.getD "false")) = "true") &&
      plan_strict_mode (pl.getD "free")) <;>
    simp [hstrict, calculate_email_score, determine_risk]

/-- Witness for C5 amended at another concrete invalid-format input. -/
theorem invalid_format_response_fields_app :
    verify_email (fun _ => false) [] (some "bad-input") none none =
      (.ok { email := "bad-input", valid_format := false, disposable := false,
             mx_record := false, role_email := false, risk_level := "high",
             score := 0, suggestions := some [suggestion_low_score],
             message := none }, []) :=
  invalid_format_response_fields (fun _ => false) [] "bad-input" none none
    (by decide) (by decide) (by decide)

/-- C6 counterexample: for a domain with no DOMAIN_CACHE entry,
has_mx_record does not return false on resolver failure — the KeyError from
the cache write escapes — and the same happens when resolution succeeds. -/
theorem mx_uncached_raises_counterexample :
    has_mx_record (fun _ => false) [] "example.com" =
      .error (.keyError "example.com")
    ∧ has_mx_record (fun _ => true) [] "example.com" =
      .error (.keyError "example.com") :=
  ⟨rfl, rfl⟩

/-- C6 amended: for every domain that already has a DOMAIN_CACHE entry —
the callers guarantee this by calling is_disposable_domain first —
has_mx_record never raises, and returns false whenever the resolver fails
and no MX value is cached yet; consequently no resolver error or other
exception ever propagates out of the /verify classification to the caller.
For a domain missing from the cache a KeyError escapes instead. -/
theorem mx_fail_closed_with_entry :
    (∀ (r : String → Bool) (c : Cache) (d : String) (e : DomainEntry),
      cacheLookup c d = some e → ∃ b c2, has_mx_record r c d = .ok (b, c2))
    ∧ (∀ (r : String → Bool) (c : Cache) (d : String) (e : DomainEntry),
      cacheLookup c d = some e → e.mx_record = none → r d = false →
      has_mx_record r c d = .ok (false, cacheSet c d { e with mx_record := some false }))
    ∧ (∀ (r : String → Bool) (c : Cache) (p pl st : Option String)
        (e : PyErr) (u : Cache),
      ¬(verify_email r c p pl st = (.serverError e, u))) :=
  ⟨has_mx_entry_ok, has_mx_fail_entry, verify_not_serverError⟩

/-- Witness for C6 amended: with an entry present and a failing resolver,
has_mx_record returns false and records the negative result. -/
theorem mx_fail_closed_with_entry_app :
    has_mx_record (fun _ => false)
        [("ex.com", { disposable := false, mx_record := none })] "ex.com" =
      .ok (false, [("ex.com", { disposable := false, mx_record := some false })]) :=
  mx_fail_closed_with_entry.2.1 (fun _ => false)
    [("ex.com", { disposable := false, mx_record := none })] "ex.com"
    { disposable := false, mx_record := none } (by decide) rfl rfl

/-- C7 counterexample: the non-string batch entry 42 is coerced with str()
and processed as the string 42 — the per-item result has valid_format false
and score 0 but carries no processing-error marker (error is none, not the
Processing error message). -/
theorem batch_nonstring_no_marker_counterexample :
    batch_verify (fun _ => false) [] [JVal.jint 42] =
      (.ok 1 1 [{ email := "42", valid_format := false, disposable := false,
                  mx_record := false, role_email := false, risk_level := "high",
                  score := 0, error := none }], [])
    ∧ ¬((none : Option String) = some "Processing error") :=
  ⟨by decide, by decide⟩

/-- C7 amended: a batch of more than 100 entries is rejected wholesale with
the count-exceeded error; a batch of N up to 100 entries yields exactly N
results in input order with total and processed counts both N; and a
malformed or non-string entry is coerced with str() and processed like any
string — when the coerced string is not a valid email the per-item result
has valid_format false and score 0 with no processing-error marker (the
marker branch exists for exceptions but no JSON entry reaches it). -/
theorem batch_cap_order_and_coercion (r : String → Bool) (c : Cache)
    (emails : List JVal) :
    (100 < emails.length →
      batch_verify r c emails = (.badRequest "Maximum 100 emails per batch", c))
    ∧ (emails.length ≤ 100 →
      batch_verify r c emails =
        (.ok emails.length emails.length (batch_run r c emails).1,
          (batch_run r c emails).2)
      ∧ (batch_run r c emails).1.length = emails.length
      ∧ (batch_run r c emails).1.map (fun it => it.email) =
          emails.map (fun v => pyStrip (pyStr v)))
    ∧ (∀ (v : JVal) (c0 : Cache), validate_email_format (pyStrip (pyStr v)) = false →
      (batch_item r c0 v).1.valid_format = false
      ∧ (batch_item r c0 v).1.score = 0
      ∧ (batch_item r c0 v).1.error = none) := by
  refine ⟨?_, ?_, ?_⟩
  · intro h
    unfold batch_verify
    rw [if_pos h]
  · intro h
    refine ⟨?_, batch_run_length r emails c, batch_run_emails r emails c⟩
    unfold batch_verify
    rw [if_neg (not_lt.2 h)]
    show (BatchResponse.ok emails.length (batch_run r c emails).1.length
      (batch_run r c emails).1, (batch_run r c emails).2) = _
    rw [batch_run_length r emails c]
  · intro v c0 hv
    unfold batch_item
    simp [hv, calculate_email_score]

/-- Witness for C7 amended: the boolean entry True is coerced to the string
True, which is not a valid email, and yields a marker-free zero-score
result. -/
theorem batch_cap_order_and_coercion_app :
    (batch_item (fun _ => true) [] (JVal.jbool true)).1.valid_format = false
    ∧ (batch_item (fun _ => true) [] (JVal.jbool true)).1.score = 0
    ∧ (batch_item (fun _ => true) [] (JVal.jbool true)).1.error = none :=
  (batch_cap_order_and_coercion (fun _ => true) [] []).2.2 (JVal.jbool true) []
    (by decide)

/-- C8 counterexample: a 255-character raw query parameter — a well-formed
11-character address padded with 244 trailing spaces — is not classified as
invalid: the handler strips it before the length check, the stripped value
passes the cap, and /verify returns valid_format true. -/
theorem length_check_after_strip_counterexample :
    254 < paddedEmailParam.length
    ∧ (verify_email (fun _ => false) [] (some paddedEmailParam) none none).1 =
      .ok { email := "a@gmail.com", valid_format := true, disposable := false,
            mx_record := false, role_email := false, risk_level := "high",
            score := 95, suggestions := some [], message := none } :=
  ⟨by decide, by decide⟩

/-- C8 amended: for every input whose whitespace-stripped form is longer
than 254 characters, /verify returns the too-long response — valid_format
false, score 0 — by a length check performed before pattern matching,
regardless of whether the string would match the email pattern, and without
touching the domain cache. -/
theorem stripped_length_cap (r : String → Bool) (c : Cache) (p : String)
    (pl st : Option String) (h : 254 < (pyStrip p).length) :
    verify_email r c (some p) pl st = (.ok (tooLongResult (pyStrip p)), c) := by
  have hne : ¬(pyStrip p = "") := by
    intro he
    rw [he] at h
    exact absurd h (by decide)
  unfold verify_email
  simp only [Option.getD]
  rw [if_neg hne, if_pos h]

/-- Witness for C8 amended at a 255-character input with no padding. -/
theorem stripped_length_cap_app :
    verify_email (fun _ => true) [] (some longBareInput) none none =
      (.ok (tooLongResult (pyStrip longBareInput)), []) :=
  stripped_length_cap (fun _ => true) [] longBareInput none none (by decide)

/-- C9: for every valid-format email with a popular domain (gmail.com,
yahoo.com, outlook.com, hotmail.com), the computed score is at least 95 for
every combination of the disposable, role and MX flags — the floor is
applied after the adjustments and survives the clamp — and the assembled
response score is still at least 95 unless strict mode fires on a negative
signal, in which case it is 0. -/
theorem popular_domain_floor (email : String) (d m r strict : Bool)
    (_hv : validate_email_format email = true)
    (hpop : listHas popular_domains (emailDomain email) = true) :
    95 ≤ calculate_email_score email true d m r
    ∧ ((strict && (d || r || !m)) = false →
      95 ≤ (mkVerifyResult email true d m r strict).score)
    ∧ ((strict && (d || r || !m)) = true →
      (mkVerifyResult email true d m r strict).score = 0) := by
  have hscore : 95 ≤ calculate_email_score email true d m r := by
    unfold calculate_email_score
    simp only [hpop]
    cases d <;> cases m <;> cases r <;> simp
  refine ⟨hscore, ?_, ?_⟩
  · intro hcond
    unfold mkVerifyResult
    simp only [hcond]
    simpa using hscore
  · intro hcond
    unfold mkVerifyResult
    simp [hcond]

/-- Witness for C9 at a popular-domain email with disposable and role flags
set and MX absent. -/
theorem popular_domain_floor_app :
    95 ≤ calculate_email_score "x@hotmail.com" true true false true :=
  (popular_domain_floor "x@hotmail.com" true false true false
    (by decide) (by decide)).1

/-- C10: has_mx_record raises KeyError for any domain absent from
DOMAIN_CACHE — on the successful-resolution and the failed-resolution path
alike — is_disposable_domain always leaves an entry for its domain, and the
/verify and /batch handlers maintain the precondition by calling
is_disposable_domain before has_mx_record, so no request ever surfaces the
KeyError: /verify never returns the 500-equivalent and no batch item ever
carries the processing-error marker. -/
theorem mx_cache_invariant :
    (∀ (r : String → Bool) (c : Cache) (d : String), cacheLookup c d = none →
      has_mx_record r c d = .error (.keyError d))
    ∧ (∀ (c : Cache) (d : String),
      ∃ e, cacheLookup ((is_disposable_domain c d).2) d = some e)
    ∧ (∀ (r : String → Bool) (c : Cache) (p pl st : Option String)
        (e : PyErr) (u : Cache),
      ¬(verify_email r c p pl st = (.serverError e, u)))
    ∧ (∀ (r : String → Bool) (vs : List JVal) (c : Cache) (it : BatchItemResult),
      it ∈ (batch_run r c vs).1 → it.error = none) :=
  ⟨has_mx_missing_error, disposable_entry_exists, verify_not_serverError,
   batch_run_no_error⟩

/-- Witness for C10: a concrete uncached domain raises KeyError even when
resolution would succeed. -/
theorem mx_cache_invariant_app :
    has_mx_record (fun _ => true) [] "foo.com" = .error (.keyError "foo.com") :=
  mx_cache_invariant.1 (fun _ => true) [] "foo.com" rfl

end EmailValidator
